import Mathlib

/-!
Verification of the task, reward and observation logic of the jitterbug_dmc
reinforcement-learning domain (jitterbug.py), shallowly embedded over the
mathematical reals.  The embedding follows the Python source: the Physics
accessor methods, the Jitterbug task class (construction, episode
initialization, observation, reward), and the numpy primitives they use
(arctan2, uniform sampling modelled as a deterministic draw stream).
-/

noncomputable section

namespace JitterbugDMC

/-- Quaternion (w, x, y, z), MuJoCo component order. -/
structure Quat where
  w : ℝ
  x : ℝ
  y : ℝ
  z : ℝ

/-- A 3-vector of reals. -/
structure Vec3 where
  x : ℝ
  y : ℝ
  z : ℝ

/-- Euclidean norm of a 3-vector (np.linalg.norm). -/
def Vec3.norm (v : Vec3) : ℝ :=
  Real.sqrt (v.x ^ 2 + v.y ^ 2 + v.z ^ 2)

/-- Componentwise difference of 3-vectors. -/
def Vec3.sub (a b : Vec3) : Vec3 :=
  ⟨a.x - b.x, a.y - b.y, a.z - b.z⟩

/-- Entry [0,0] of the rotation matrix produced by mju_quat2Mat. -/
def quatMat00 (q : Quat) : ℝ :=
  q.w ^ 2 + q.x ^ 2 - q.y ^ 2 - q.z ^ 2

/-- Entry [1,0] of the rotation matrix produced by mju_quat2Mat. -/
def quatMat10 (q : Quat) : ℝ :=
  2 * (q.x * q.y + q.w * q.z)

/-- Two-argument arctangent: the embedding of np.arctan2 over mathematical
reals (no signed zeros), with range (-pi, pi]. -/
def atan2 (y x : ℝ) : ℝ :=
  if 0 < x then Real.arctan (y / x)
  else if x < 0 then
    if 0 ≤ y then Real.arctan (y / x) + Real.pi
    else Real.arctan (y / x) - Real.pi
  else
    if 0 < y then Real.pi / 2
    else if y < 0 then -(Real.pi / 2)
    else 0

theorem atan2_mem_Ioc (y x : ℝ) : atan2 y x ∈ Set.Ioc (-Real.pi) Real.pi := by
  have hpi := Real.pi_pos
  have h1 : ∀ t : ℝ, Real.arctan t < Real.pi / 2 := Real.arctan_lt_pi_div_two
  have h2 : ∀ t : ℝ, -(Real.pi / 2) < Real.arctan t := Real.neg_pi_div_two_lt_arctan
  unfold atan2
  split_ifs with hx hneg hy hy1 hy2
  · exact ⟨by linarith [h2 (y / x)], by linarith [h1 (y / x)]⟩
  · have hyx : y / x ≤ 0 := div_nonpos_of_nonneg_of_nonpos hy hneg.le
    have harc : Real.arctan (y / x) ≤ 0 := by
      have := Real.arctan_strictMono.monotone hyx
      rwa [Real.arctan_zero] at this
    exact ⟨by linarith [h2 (y / x)], by linarith⟩
  · have hyx : 0 < y / x := div_pos_iff.mpr (Or.inr ⟨not_le.mp hy, hneg⟩)
    have harc : 0 < Real.arctan (y / x) := by
      have := Real.arctan_strictMono hyx
      rwa [Real.arctan_zero] at this
    exact ⟨by linarith, by linarith [h1 (y / x)]⟩
  · exact ⟨by linarith, by linarith⟩
  · exact ⟨by linarith, by linarith⟩
  · exact ⟨by linarith, by linarith⟩

/-- First normalization loop of angle_jitterbug_to_target:
while angle > pi: angle -= 2*pi. -/
def wrapDown (a : ℝ) : ℝ :=
  if h : Real.pi < a then wrapDown (a - 2 * Real.pi) else a
termination_by (⌈(a - Real.pi) / (2 * Real.pi)⌉).toNat
decreasing_by
  have h2pi : (0 : ℝ) < 2 * Real.pi := by positivity
  have key : (a - 2 * Real.pi - Real.pi) / (2 * Real.pi)
      = (a - Real.pi) / (2 * Real.pi) - 1 := by
    field_simp
    ring
  have hpos : 0 < (a - Real.pi) / (2 * Real.pi) := div_pos (by linarith) h2pi
  have hceil : 1 ≤ ⌈(a - Real.pi) / (2 * Real.pi)⌉ := Int.ceil_pos.mpr hpos
  have heq : ⌈(a - 2 * Real.pi - Real.pi) / (2 * Real.pi)⌉
      = ⌈(a - Real.pi) / (2 * Real.pi)⌉ - 1 := by
    rw [key, Int.ceil_sub_one]
  simp only [heq]
  omega

/-- Second normalization loop of angle_jitterbug_to_target:
while angle <= -pi: angle += 2*pi. -/
def wrapUp (a : ℝ) : ℝ :=
  if h : a ≤ -Real.pi then wrapUp (a + 2 * Real.pi) else a
termination_by (⌈(-Real.pi - a) / (2 * Real.pi)⌉ + 1).toNat
decreasing_by
  have h2pi : (0 : ℝ) < 2 * Real.pi := by positivity
  have key : (-Real.pi - (a + 2 * Real.pi)) / (2 * Real.pi)
      = (-Real.pi - a) / (2 * Real.pi) - 1 := by
    field_simp
    ring
  have hnn : 0 ≤ (-Real.pi - a) / (2 * Real.pi) := div_nonneg (by linarith) h2pi.le
  have hceil : 0 ≤ ⌈(-Real.pi - a) / (2 * Real.pi)⌉ := Int.ceil_nonneg hnn
  have heq : ⌈(-Real.pi - (a + 2 * Real.pi)) / (2 * Real.pi)⌉
      = ⌈(-Real.pi - a) / (2 * Real.pi)⌉ - 1 := by
    rw [key, Int.ceil_sub_one]
  simp only [heq]
  omega

theorem wrapDown_of_le (a : ℝ) (h : a ≤ Real.pi) : wrapDown a = a := by
  rw [wrapDown]
  simp [not_lt.mpr h]

theorem wrapDown_of_gt (a : ℝ) (h : Real.pi < a) :
    wrapDown a = wrapDown (a - 2 * Real.pi) := by
  conv_lhs => rw [wrapDown]
  simp [h]

theorem wrapUp_of_gt (a : ℝ) (h : -Real.pi < a) : wrapUp a = a := by
  rw [wrapUp]
  simp [not_le.mpr h]

theorem wrapUp_of_le (a : ℝ) (h : a ≤ -Real.pi) :
    wrapUp a = wrapUp (a + 2 * Real.pi) := by
  conv_lhs => rw [wrapUp]
  simp [h]

theorem wrapDown_le_pi (a : ℝ) : wrapDown a ≤ Real.pi := by
  induction a using wrapDown.induct with
  | case1 a h ih =>
    rw [wrapDown_of_gt a h]
    exact ih
  | case2 a h =>
    rw [wrapDown_of_le a (not_lt.mp h)]
    exact not_lt.mp h

theorem wrapDown_gt_of_gt (a : ℝ) (h : -Real.pi < a) : -Real.pi < wrapDown a := by
  induction a using wrapDown.induct with
  | case1 a hgt ih =>
    rw [wrapDown_of_gt a hgt]
    refine ih ?_
    have := Real.pi_pos
    linarith
  | case2 a hle =>
    rw [wrapDown_of_le a (not_lt.mp hle)]
    exact h

theorem wrapDown_sub_int (a : ℝ) : ∃ k : ℤ, wrapDown a = a - 2 * Real.pi * k := by
  induction a using wrapDown.induct with
  | case1 a h ih =>
    obtain ⟨k, hk⟩ := ih
    refine ⟨k + 1, ?_⟩
    rw [wrapDown_of_gt a h, hk]
    push_cast
    ring
  | case2 a h =>
    refine ⟨0, ?_⟩
    rw [wrapDown_of_le a (not_lt.mp h)]
    push_cast
    ring

theorem wrapUp_gt_neg_pi (a : ℝ) : -Real.pi < wrapUp a := by
  induction a using wrapUp.induct with
  | case1 a h ih =>
    rw [wrapUp_of_le a h]
    exact ih
  | case2 a h =>
    rw [wrapUp_of_gt a (not_le.mp h)]
    exact not_le.mp h

theorem wrapUp_le_pi_of_le (a : ℝ) (h : a ≤ Real.pi) : wrapUp a ≤ Real.pi := by
  induction a using wrapUp.induct with
  | case1 a hle ih =>
    rw [wrapUp_of_le a hle]
    refine ih ?_
    have := Real.pi_pos
    linarith
  | case2 a hgt =>
    rw [wrapUp_of_gt a (not_le.mp hgt)]
    exact h

theorem wrapUp_add_int (a : ℝ) : ∃ k : ℤ, wrapUp a = a + 2 * Real.pi * k := by
  induction a using wrapUp.induct with
  | case1 a h ih =>
    obtain ⟨k, hk⟩ := ih
    refine ⟨k + 1, ?_⟩
    rw [wrapUp_of_le a h, hk]
    push_cast
    ring
  | case2 a h =>
    refine ⟨0, ?_⟩
    rw [wrapUp_of_gt a (not_le.mp h)]
    push_cast
    ring

/-- The slice of MuJoCo simulation state that the Jitterbug task reads:
root joint pose and velocity, motor joint state, target body pose, and the
ZZ entry of the jitterbug body rotation matrix. -/
structure Physics where
  qpos_root_xyz : Vec3
  qpos_root_quat : Quat
  qvel_root_lin : Vec3
  qvel_root_ang : Vec3
  qpos_jointMass : ℝ
  qvel_jointMass : ℝ
  geom_xpos_target : Vec3
  xquat_target : Quat
  xmat_jitterbug_zz : ℝ

/-- Components of a 3-vector as a flat list. -/
def Vec3.toList (v : Vec3) : List ℝ :=
  [v.x, v.y, v.z]

/-- Components of a pair as a flat list. -/
def pairToList (a : ℝ × ℝ) : List ℝ :=
  [a.1, a.2]

/-- Dot product of 2-vectors (the numpy matmul of two length-2 arrays). -/
def dot2 (a b : ℝ × ℝ) : ℝ :=
  a.1 * b.1 + a.2 * b.2

/-- Full jitterbug pose vector qpos of the root joint (7 entries). -/
def Physics.jitterbug_position (p : Physics) : List ℝ :=
  p.qpos_root_xyz.toList ++
    [p.qpos_root_quat.w, p.qpos_root_quat.x, p.qpos_root_quat.y, p.qpos_root_quat.z]

/-- XYZ position of the Jitterbug. -/
def Physics.jitterbug_position_xyz (p : Physics) : Vec3 :=
  p.qpos_root_xyz

/-- Orientation quaternion of the Jitterbug. -/
def Physics.jitterbug_position_quat (p : Physics) : Quat :=
  p.qpos_root_quat

/-- Yaw angle of the Jitterbug: arctan2 of the rotation-matrix entries
[1,0] and [0,0], shifted by -pi/2 to align the model's -Y facing with +X. -/
def Physics.jitterbug_direction_yaw (p : Physics) : ℝ :=
  atan2 (quatMat10 p.jitterbug_position_quat) (quatMat00 p.jitterbug_position_quat)
    - Real.pi / 2

/-- Full jitterbug velocity vector qvel of the root joint (6 entries). -/
def Physics.jitterbug_velocity (p : Physics) : List ℝ :=
  p.qvel_root_lin.toList ++ p.qvel_root_ang.toList

/-- XYZ velocity of the Jitterbug. -/
def Physics.jitterbug_velocity_xyz (p : Physics) : Vec3 :=
  p.qvel_root_lin

/-- First two entries of jitterbug_velocity_xyz (the slice [0:2]). -/
def Physics.jitterbug_velocity_xy (p : Physics) : ℝ × ℝ :=
  (p.qvel_root_lin.x, p.qvel_root_lin.y)

/-- Motor angular position (qpos of jointMass). -/
def Physics.motor_position (p : Physics) : ℝ :=
  p.qpos_jointMass

/-- Motor angular velocity (qvel of jointMass). -/
def Physics.motor_velocity (p : Physics) : ℝ :=
  p.qvel_jointMass

/-- XYZ position of the target geom. -/
def Physics.target_position_xyz (p : Physics) : Vec3 :=
  p.geom_xpos_target

/-- Orientation quaternion of the target body. -/
def Physics.target_position_quat (p : Physics) : Quat :=
  p.xquat_target

/-- Yaw angle of the target: arctan2 of the rotation-matrix entries
[1,0] and [0,0], with no calibration offset. -/
def Physics.target_direction_yaw (p : Physics) : ℝ :=
  atan2 (quatMat10 p.target_position_quat) (quatMat00 p.target_position_quat)

/-- Target heading as a global 2-vector (cos yaw, sin yaw). -/
def Physics.target_direction_vec2 (p : Physics) : ℝ × ℝ :=
  (Real.cos p.target_direction_yaw, Real.sin p.target_direction_yaw)

/-- XYZ vector from the jitterbug to the target. -/
def Physics.vec3_jitterbug_to_target (p : Physics) : Vec3 :=
  Vec3.sub p.target_position_xyz p.jitterbug_position_xyz

/-- Normalization of an angle difference by the two loops of
angle_jitterbug_to_target, for arbitrary target and robot yaw values. -/
def angleJitterbugToTargetOf (targetYaw robotYaw : ℝ) : ℝ :=
  wrapUp (wrapDown (targetYaw - robotYaw))

/-- Relative yaw angle from the Jitterbug heading to the target:
the difference of the two yaws pushed into (-pi, pi] by repeatedly
subtracting 2*pi while above pi, then repeatedly adding 2*pi while at or
below -pi. -/
def Physics.angle_jitterbug_to_target (p : Physics) : ℝ :=
  angleJitterbugToTargetOf p.target_direction_yaw p.jitterbug_direction_yaw

/-- Relative XY yaw direction vector to the target. -/
def Physics.vec2_direction_to_target (p : Physics) : ℝ × ℝ :=
  (Real.cos p.angle_jitterbug_to_target, Real.sin p.angle_jitterbug_to_target)

/-- The task names discovered by the reflective scan in Jitterbug.__init__:
module-level functions registered in SUITE, in the alphabetical order
produced by inspect.getmembers. -/
def task_names : List String :=
  ["face_direction", "move_from_origin", "move_in_direction",
   "move_to_pose", "move_to_position"]

/-- A constructed Jitterbug task holds only its validated variant name. -/
structure Jitterbug where
  task : String

/-- Embedding of Jitterbug.__init__: the task string is validated against
the reflected registry names before the task attribute is set; an
unrecognized name raises AssertionError (modelled as Except.error) and no
task object is produced.  No simulation state is involved (the
constructor's type mentions none). -/
def Jitterbug.make (task : String) : Except String Jitterbug :=
  if task ∈ task_names then Except.ok { task := task }
  else Except.error ("Invalid task " ++ task)

/-- Formula of Jitterbug.face_direction_reward as a function of the
relative angle to the target. -/
def faceDirectionRewardOf (angle : ℝ) : ℝ :=
  2 / (|angle| / Real.pi + 1) - 1

/-- Reward for facing the target direction. -/
def Jitterbug.face_direction_reward (p : Physics) : ℝ :=
  faceDirectionRewardOf p.angle_jitterbug_to_target

/-- Formula of Jitterbug.move_to_position_reward as a function of the
distance to the target. -/
def positionRewardOf (dist : ℝ) : ℝ :=
  1 / (10 * dist + 1)

/-- Reward for moving to the target position. -/
def Jitterbug.move_to_position_reward (p : Physics) : ℝ :=
  positionRewardOf (Vec3.norm p.vec3_jitterbug_to_target)

/-- Reward for remaining upright: the jitterbug rotation matrix ZZ entry
clamped to [0, 1]. -/
def Jitterbug.upright_reward (p : Physics) : ℝ :=
  min (max 0 p.xmat_jitterbug_zz) 1

/-- Embedding of Jitterbug.get_reward: dispatch on the task name to a base
reward, then multiply by upright_reward; the unreachable else branch
(ValueError) is none. -/
def Jitterbug.get_reward (self : Jitterbug) (p : Physics) : Option ℝ :=
  (if self.task = "move_from_origin" then
    some (1 - Jitterbug.move_to_position_reward p)
  else if self.task = "face_direction" then
    some (Jitterbug.face_direction_reward p)
  else if self.task = "move_in_direction" then
    let max_speed_per_step : ℝ := 0.3
    let jitterbug_vel : ℝ × ℝ := p.jitterbug_velocity_xy
    let target_vel : ℝ × ℝ :=
      (1.0 * p.target_direction_vec2.1, 1.0 * p.target_direction_vec2.2)
    some (min (max 0.0 (dot2 jitterbug_vel target_vel) / max_speed_per_step) 1.0)
  else if self.task = "move_to_position" then
    some (Jitterbug.move_to_position_reward p)
  else if self.task = "move_to_pose" then
    some (Jitterbug.move_to_position_reward p * Jitterbug.face_direction_reward p)
  else none).map fun r => r * Jitterbug.upright_reward p

/-- Embedding of Jitterbug.get_observation: an ordered association list of
field names to value vectors, built by inserting the four base fields and
then the task-specific fields; the unreachable else branch is none. -/
def Jitterbug.get_observation (self : Jitterbug) (p : Physics) :
    Option (List (String × List ℝ)) :=
  let obs : List (String × List ℝ) :=
    [("position", p.jitterbug_position),
     ("velocity", p.jitterbug_velocity),
     ("motor_position", [p.motor_position]),
     ("motor_velocity", [p.motor_velocity])]
  if self.task = "move_from_origin" then
    some obs
  else if self.task = "face_direction" then
    some (obs ++ [("target_direction", pairToList p.vec2_direction_to_target)])
  else if self.task = "move_in_direction" then
    some (obs ++ [("target_direction", pairToList p.vec2_direction_to_target)])
  else if self.task = "move_to_position" then
    some (obs ++ [("target_position", p.vec3_jitterbug_to_target.toList)])
  else if self.task = "move_to_pose" then
    some (obs ++ [("target_position", p.vec3_jitterbug_to_target.toList),
                  ("target_direction", pairToList p.vec2_direction_to_target)])
  else none

/-- Deterministic model of a numpy RandomState: an infinite stream of raw
draws in the unit interval together with a cursor into it. -/
structure RNG where
  stream : ℕ → ℝ
  idx : ℕ

/-- Model of RandomState.uniform(lo, hi): the next raw draw mapped
affinely onto [lo, hi); consumes exactly one draw. -/
def RNG.uniform (r : RNG) (lo hi : ℝ) : ℝ × RNG :=
  (lo + (hi - lo) * r.stream r.idx, ⟨r.stream, r.idx + 1⟩)

/-- The model fields written by initialize_episode inside the reset
context: the target pointer alpha, the target body XY position and the
target body quaternion. -/
structure ModelState where
  geom_rgba_targetPointer_alpha : ℝ
  body_pos_target_x : ℝ
  body_pos_target_y : ℝ
  body_quat_target : Quat

/-- Embedding of Jitterbug.initialize_episode.  selfRandom is the task's
per-episode RNG (self.random); npRandom is the process-global numpy RNG
(np.random), which the source uses for the yaw draw.  The draws happen in
source order: angle, radius (both from selfRandom), then yaw (from
npRandom).  Returns the written model state and both RNGs' final states;
none models the ValueError branch. -/
def Jitterbug.initialize_episode (self : Jitterbug) (m : ModelState)
    (selfRandom npRandom : RNG) : Option (ModelState × RNG × RNG) :=
  let d1 := selfRandom.uniform 0 (2 * Real.pi)
  let angle := d1.1
  let r1 := d1.2
  let d2 := r1.uniform 0.05 0.3
  let radius := d2.1
  let r2 := d2.2
  let d3 := npRandom.uniform 0 (2 * Real.pi)
  let yaw := d3.1
  let g1 := d3.2
  if self.task = "move_from_origin" then
    some ({ m with geom_rgba_targetPointer_alpha := 0 }, r2, g1)
  else if self.task = "face_direction" then
    some ({ m with
              body_quat_target :=
                ⟨Real.cos (yaw / 2), 0, 0, 1 * Real.sin (yaw / 2)⟩ }, r2, g1)
  else if self.task = "move_in_direction" then
    some ({ m with
              body_quat_target :=
                ⟨Real.cos (yaw / 2), 0, 0, 1 * Real.sin (yaw / 2)⟩ }, r2, g1)
  else if self.task = "move_to_position" then
    some ({ m with
              geom_rgba_targetPointer_alpha := 0,
              body_pos_target_x := radius * Real.sin angle,
              body_pos_target_y := radius * Real.cos angle }, r2, g1)
  else if self.task = "move_to_pose" then
    some ({ m with
              body_pos_target_x := radius * Real.sin angle,
              body_pos_target_y := radius * Real.cos angle,
              body_quat_target :=
                ⟨Real.cos (yaw / 2), 0, 0, 1 * Real.sin (yaw / 2)⟩ }, r2, g1)
  else none

/-- Base reward computed by the move_in_direction branch of get_reward. -/
def moveInDirectionBase (p : Physics) : ℝ :=
  min (max 0 (dot2 p.jitterbug_velocity_xy p.target_direction_vec2) / 0.3) 1

/-- A reference physics state: identity orientations, all vectors zero,
upright body. -/
def basePhysics : Physics :=
  { qpos_root_xyz := ⟨0, 0, 0⟩
    qpos_root_quat := ⟨1, 0, 0, 0⟩
    qvel_root_lin := ⟨0, 0, 0⟩
    qvel_root_ang := ⟨0, 0, 0⟩
    qpos_jointMass := 0
    qvel_jointMass := 0
    geom_xpos_target := ⟨0, 0, 0⟩
    xquat_target := ⟨1, 0, 0, 0⟩
    xmat_jitterbug_zz := 1 }

/-- A reference model state before a reset: visible pointer, target at the
origin with identity orientation. -/
def baseModel : ModelState :=
  { geom_rgba_targetPointer_alpha := 1
    body_pos_target_x := 0
    body_pos_target_y := 0
    body_quat_target := ⟨1, 0, 0, 0⟩ }

/-- An RNG whose raw draws are all the constant u, cursor at 0. -/
def constRNG (u : ℝ) : RNG :=
  ⟨fun _ => u, 0⟩

/-- C9: constructing a Task succeeds exactly for the five registered
variant names; any other string, such as spin_forever, fails with an
invalid-argument error, and the constructor's type involves no simulation
state at all. -/
theorem make_validates_variant :
    (∀ t : String, t ∈ task_names ↔ Jitterbug.make t = Except.ok ⟨t⟩)
    ∧ task_names = ["face_direction", "move_from_origin", "move_in_direction",
        "move_to_pose", "move_to_position"]
    ∧ Jitterbug.make "spin_forever" = Except.error "Invalid task spin_forever" := by
  refine ⟨fun t => ⟨fun h => ?_, fun h => ?_⟩, rfl, ?_⟩
  · simp [Jitterbug.make, h]
  · by_cases hm : t ∈ task_names
    · exact hm
    · simp [Jitterbug.make, hm] at h
  · simp [Jitterbug.make, task_names]

/-- C2: for every valid variant, get_reward is the variant's base reward
multiplied, after variant dispatch, by upright_reward; upright_reward is
the body rotation ZZ entry clamped to [0, 1], with raw 1.5 clamping to 1
and raw -0.5 clamping to 0. -/
theorem get_reward_dispatch (p : Physics) :
    (Jitterbug.mk "move_from_origin").get_reward p
      = some ((1 - Jitterbug.move_to_position_reward p) * Jitterbug.upright_reward p)
    ∧ (Jitterbug.mk "face_direction").get_reward p
      = some (Jitterbug.face_direction_reward p * Jitterbug.upright_reward p)
    ∧ (Jitterbug.mk "move_in_direction").get_reward p
      = some (moveInDirectionBase p * Jitterbug.upright_reward p)
    ∧ (Jitterbug.mk "move_to_position").get_reward p
      = some (Jitterbug.move_to_position_reward p * Jitterbug.upright_reward p)
    ∧ (Jitterbug.mk "move_to_pose").get_reward p
      = some (Jitterbug.move_to_position_reward p * Jitterbug.face_direction_reward p
          * Jitterbug.upright_reward p)
    ∧ (0 ≤ Jitterbug.upright_reward p ∧ Jitterbug.upright_reward p ≤ 1)
    ∧ Jitterbug.upright_reward { basePhysics with xmat_jitterbug_zz := 1.5 } = 1
    ∧ Jitterbug.upright_reward { basePhysics with xmat_jitterbug_zz := -0.5 } = 0 := by
  refine ⟨?_, ?_, ?_, ?_, ?_, ⟨?_, ?_⟩, ?_, ?_⟩
  · simp [Jitterbug.get_reward]
  · simp [Jitterbug.get_reward]
  · simp [Jitterbug.get_reward, moveInDirectionBase, dot2]
    exact Or.inl (by norm_num)
  · simp [Jitterbug.get_reward]
  · simp [Jitterbug.get_reward]
  · exact le_min (le_max_left 0 _) zero_le_one
  · exact min_le_right _ 1
  · rw [Jitterbug.upright_reward]
    rw [max_eq_right (by norm_num), min_eq_right (by norm_num)]
  · rw [Jitterbug.upright_reward]
    rw [max_eq_left (by norm_num), min_eq_left (by norm_num)]

/-- C8: the observation always starts with the four base fields in fixed
order, followed by the task-specific fields in fixed order:
target_direction exactly for face_direction, move_in_direction and
move_to_pose; target_position exactly for move_to_position and
move_to_pose. -/
theorem get_observation_fields (p : Physics) :
    ((Jitterbug.mk "move_from_origin").get_observation p).map (List.map Prod.fst)
      = some ["position", "velocity", "motor_position", "motor_velocity"]
    ∧ ((Jitterbug.mk "face_direction").get_observation p).map (List.map Prod.fst)
      = some ["position", "velocity", "motor_position", "motor_velocity",
          "target_direction"]
    ∧ ((Jitterbug.mk "move_in_direction").get_observation p).map (List.map Prod.fst)
      = some ["position", "velocity", "motor_position", "motor_velocity",
          "target_direction"]
    ∧ ((Jitterbug.mk "move_to_position").get_observation p).map (List.map Prod.fst)
      = some ["position", "velocity", "motor_position", "motor_velocity",
          "target_position"]
    ∧ ((Jitterbug.mk "move_to_pose").get_observation p).map (List.map Prod.fst)
      = some ["position", "velocity", "motor_position", "motor_velocity",
          "target_position", "target_direction"] := by
  refine ⟨?_, ?_, ?_, ?_, ?_⟩ <;> simp [Jitterbug.get_observation]

/-- C10: every reset consumes exactly two draws from the per-episode RNG,
angle then radius, for all five variants, so the episode RNG state after a
reset is the same function of its prior state (cursor advanced by two) for
every variant; the move_to_position target write exposes the draw order
and ranges: x uses the radius draw (second, affine onto [0.05, 0.3)) times
the sine of the angle draw (first, affine onto [0, 2*pi)). -/
theorem initialize_episode_rng_use (m : ModelState) (er gr : RNG) :
    ((Jitterbug.mk "move_from_origin").initialize_episode m er gr).map (fun o => o.2.1)
      = some ⟨er.stream, er.idx + 2⟩
    ∧ ((Jitterbug.mk "face_direction").initialize_episode m er gr).map (fun o => o.2.1)
      = some ⟨er.stream, er.idx + 2⟩
    ∧ ((Jitterbug.mk "move_in_direction").initialize_episode m er gr).map (fun o => o.2.1)
      = some ⟨er.stream, er.idx + 2⟩
    ∧ ((Jitterbug.mk "move_to_position").initialize_episode m er gr).map (fun o => o.2.1)
      = some ⟨er.stream, er.idx + 2⟩
    ∧ ((Jitterbug.mk "move_to_pose").initialize_episode m er gr).map (fun o => o.2.1)
      = some ⟨er.stream, er.idx + 2⟩
    ∧ ((Jitterbug.mk "move_to_position").initialize_episode m er gr).map
        (fun o => (o.1.body_pos_target_x, o.1.body_pos_target_y))
      = some ((0.05 + (0.3 - 0.05) * er.stream (er.idx + 1))
            * Real.sin (0 + (2 * Real.pi - 0) * er.stream er.idx),
          (0.05 + (0.3 - 0.05) * er.stream (er.idx + 1))
            * Real.cos (0 + (2 * Real.pi - 0) * er.stream er.idx)) := by
  refine ⟨?_, ?_, ?_, ?_, ?_, ?_⟩ <;>
    simp [Jitterbug.initialize_episode, RNG.uniform]

/-- C1 is violated by the source: the yaw draw in initialize_episode comes
from the process-global numpy RNG (np.random.uniform), not from the task's
per-episode RNG (self.random).  With the episode RNG held fixed, a
face_direction reset writes different target quaternions for different
global RNG states (first raw global draw 0 versus 1/4), while with the
global RNG held fixed it writes the same quaternion even when the episode
RNG stream changes completely. -/
theorem initialize_episode_yaw_from_global_rng :
    ((Jitterbug.mk "face_direction").initialize_episode baseModel (constRNG 0)
        (constRNG 0)).map (fun o => o.1.body_quat_target.w) = some 1
    ∧ ((Jitterbug.mk "face_direction").initialize_episode baseModel (constRNG 0)
        (constRNG (1/4))).map (fun o => o.1.body_quat_target.w)
      = some (Real.sqrt 2 / 2)
    ∧ Real.sqrt 2 / 2 ≠ 1
    ∧ ((Jitterbug.mk "face_direction").initialize_episode baseModel (constRNG 0)
        (constRNG 0)).map (fun o => o.1.body_quat_target)
      = ((Jitterbug.mk "face_direction").initialize_episode baseModel (constRNG (1/3))
          (constRNG 0)).map (fun o => o.1.body_quat_target) := by
  refine ⟨?_, ?_, ?_, ?_⟩
  · simp [Jitterbug.initialize_episode, RNG.uniform, constRNG, Real.cos_zero]
  · simp only [Jitterbug.initialize_episode, RNG.uniform, constRNG, Option.map_some]
    norm_num
    rw [show (2 * Real.pi * (1/4 : ℝ)) / 2 = Real.pi / 4 by ring, Real.cos_pi_div_four]
    simp
  · intro h
    have h2 : Real.sqrt 2 = 2 := by linarith
    have hsq := Real.sq_sqrt (by norm_num : (0:ℝ) ≤ 2)
    rw [h2] at hsq
    norm_num at hsq
  · simp [Jitterbug.initialize_episode, RNG.uniform, constRNG]

/-- C3: angle_jitterbug_to_target returns the yaw difference adjusted by a
whole multiple of 2*pi into the half-open interval (-pi, pi]; a difference
of exactly -pi is mapped to +pi, and the relative yaw computed from any
physics state lies in (-pi, pi]. -/
theorem angle_normalization (t r : ℝ) :
    (∃ k : ℤ, angleJitterbugToTargetOf t r = t - r + 2 * Real.pi * k)
    ∧ angleJitterbugToTargetOf t r ∈ Set.Ioc (-Real.pi) Real.pi
    ∧ (t - r = -Real.pi → angleJitterbugToTargetOf t r = Real.pi)
    ∧ (∀ p : Physics, p.angle_jitterbug_to_target ∈ Set.Ioc (-Real.pi) Real.pi) := by
  have hpi := Real.pi_pos
  refine ⟨?_, ?_, ?_, ?_⟩
  · obtain ⟨k1, hk1⟩ := wrapDown_sub_int (t - r)
    obtain ⟨k2, hk2⟩ := wrapUp_add_int (wrapDown (t - r))
    refine ⟨k2 - k1, ?_⟩
    rw [angleJitterbugToTargetOf, hk2, hk1]
    push_cast
    ring
  · exact ⟨wrapUp_gt_neg_pi _, wrapUp_le_pi_of_le _ (wrapDown_le_pi _)⟩
  · intro h
    rw [angleJitterbugToTargetOf, h,
      wrapDown_of_le (-Real.pi) (by linarith),
      wrapUp_of_le (-Real.pi) le_rfl,
      show -Real.pi + 2 * Real.pi = Real.pi by ring,
      wrapUp_of_gt Real.pi (by linarith)]
  · intro p
    exact ⟨wrapUp_gt_neg_pi _, wrapUp_le_pi_of_le _ (wrapDown_le_pi _)⟩

/-- Witness for angle_normalization at the boundary: the difference of the
yaw pair (0, pi) is exactly -pi and normalizes to +pi. -/
theorem angle_normalization_boundary :
    angleJitterbugToTargetOf 0 Real.pi = Real.pi :=
  (angle_normalization 0 Real.pi).2.2.1 (by ring)

/-- C4 is violated by the source: jitterbug_direction_yaw subtracts pi/2
from the arctan2 heading without renormalizing, so for the unit robot
quaternion (w, x, y, z) = (3/5, 0, 0, -4/5) the returned yaw is
arctan(24/7) - 3*pi/2, which is strictly below -pi and hence outside
(-pi, pi]. -/
theorem jitterbug_yaw_escapes_range :
    ((3:ℝ)/5) ^ 2 + 0 ^ 2 + 0 ^ 2 + (-(4:ℝ)/5) ^ 2 = 1
    ∧ { basePhysics with
          qpos_root_quat := ⟨3/5, 0, 0, -4/5⟩ }.jitterbug_direction_yaw < -Real.pi
    ∧ { basePhysics with
          qpos_root_quat := ⟨3/5, 0, 0, -4/5⟩ }.jitterbug_direction_yaw
        ∉ Set.Ioc (-Real.pi) Real.pi := by
  have hpi := Real.pi_pos
  have harct := Real.arctan_lt_pi_div_two ((-96/100 : ℝ) / (-28/100))
  have hkey : { basePhysics with
      qpos_root_quat := (⟨3/5, 0, 0, -4/5⟩ : Quat) }.jitterbug_direction_yaw
      = Real.arctan ((-96/100 : ℝ) / (-28/100)) - Real.pi - Real.pi / 2 := by
    rw [Physics.jitterbug_direction_yaw, Physics.jitterbug_position_quat]
    have h00 : quatMat00 (⟨3/5, 0, 0, -4/5⟩ : Quat) = -28/100 := by
      rw [quatMat00]; norm_num
    have h10 : quatMat10 (⟨3/5, 0, 0, -4/5⟩ : Quat) = -96/100 := by
      rw [quatMat10]; norm_num
    rw [h00, h10, atan2]
    rw [if_neg (by norm_num), if_pos (by norm_num), if_neg (by norm_num)]
  refine ⟨by norm_num, ?_, ?_⟩
  · rw [hkey]
    linarith
  · rw [hkey, Set.mem_Ioc]
    push_neg
    intro hcon
    linarith

/-- C5: the face-direction reward formula 2 / (|angle|/pi + 1) - 1 lies in
[0, 1] on (-pi, pi], equals 1 exactly at angle 0, equals 0 when the
absolute angle is pi, is strictly decreasing in the absolute angle, and
therefore the reward read from any physics state lies in [0, 1]. -/
theorem face_direction_reward_spec :
    (∀ a : ℝ, a ∈ Set.Ioc (-Real.pi) Real.pi →
        0 ≤ faceDirectionRewardOf a ∧ faceDirectionRewardOf a ≤ 1)
    ∧ faceDirectionRewardOf 0 = 1
    ∧ (∀ a : ℝ, |a| = Real.pi → faceDirectionRewardOf a = 0)
    ∧ (∀ a b : ℝ, |a| < |b| →
        faceDirectionRewardOf b < faceDirectionRewardOf a)
    ∧ (∀ p : Physics, 0 ≤ Jitterbug.face_direction_reward p
        ∧ Jitterbug.face_direction_reward p ≤ 1) := by
  have hpi := Real.pi_pos
  have hbounds : ∀ a : ℝ, a ∈ Set.Ioc (-Real.pi) Real.pi →
      0 ≤ faceDirectionRewardOf a ∧ faceDirectionRewardOf a ≤ 1 := by
    intro a ha
    have habs : |a| ≤ Real.pi := abs_le.mpr ⟨ha.1.le, ha.2⟩
    have hd0 : 0 ≤ |a| / Real.pi := div_nonneg (abs_nonneg a) hpi.le
    have hd1 : |a| / Real.pi ≤ 1 := (div_le_one hpi).mpr habs
    have hden : (0:ℝ) < |a| / Real.pi + 1 := by linarith
    constructor
    · rw [faceDirectionRewardOf, sub_nonneg, le_div_iff hden]
      linarith
    · rw [faceDirectionRewardOf, sub_le_iff_le_add, div_le_iff hden]
      linarith
  refine ⟨hbounds, ?_, ?_, ?_, ?_⟩
  · rw [faceDirectionRewardOf, abs_zero, zero_div]
    norm_num
  · intro a ha
    rw [faceDirectionRewardOf, ha, div_self (ne_of_gt hpi)]
    norm_num
  · intro a b hab
    have hda : (0:ℝ) < |a| / Real.pi + 1 := by
      have := div_nonneg (abs_nonneg a) hpi.le
      linarith
    have hlt : |a| / Real.pi + 1 < |b| / Real.pi + 1 := by
      have := (div_lt_div_right hpi).mpr hab
      linarith
    have := div_lt_div_of_pos_left (by norm_num : (0:ℝ) < 2) hda hlt
    rw [faceDirectionRewardOf, faceDirectionRewardOf]
    linarith
  · intro p
    exact hbounds p.angle_jitterbug_to_target
      ⟨wrapUp_gt_neg_pi _, wrapUp_le_pi_of_le _ (wrapDown_le_pi _)⟩

/-- Witness for face_direction_reward_spec at concrete angles: the reward
is 0 at angle pi and smaller at pi than at 0. -/
theorem face_direction_reward_values :
    faceDirectionRewardOf Real.pi = 0
    ∧ faceDirectionRewardOf Real.pi < faceDirectionRewardOf 0 :=
  ⟨face_direction_reward_spec.2.2.1 Real.pi (abs_of_pos Real.pi_pos),
   face_direction_reward_spec.2.2.2.1 0 Real.pi
     (by rw [abs_zero, abs_of_pos Real.pi_pos]; exact Real.pi_pos)⟩

/-- C6: the position reward 1 / (10*dist + 1) lies in (0, 1] for every
physics state, equals 1 exactly at distance 0, is strictly decreasing in
the distance, and tends to 0 as the distance grows without bound. -/
theorem position_reward_spec :
    (∀ p : Physics, 0 < Jitterbug.move_to_position_reward p
        ∧ Jitterbug.move_to_position_reward p ≤ 1)
    ∧ (∀ p : Physics, Vec3.norm p.vec3_jitterbug_to_target = 0 →
        Jitterbug.move_to_position_reward p = 1)
    ∧ (∀ d1 d2 : ℝ, 0 ≤ d1 → d1 < d2 →
        positionRewardOf d2 < positionRewardOf d1)
    ∧ Filter.Tendsto positionRewardOf Filter.atTop (nhds 0) := by
  refine ⟨?_, ?_, ?_, ?_⟩
  · intro p
    have hd : 0 ≤ Vec3.norm p.vec3_jitterbug_to_target := Real.sqrt_nonneg _
    have hden : (0:ℝ) < 10 * Vec3.norm p.vec3_jitterbug_to_target + 1 := by linarith
    constructor
    · exact div_pos one_pos hden
    · rw [Jitterbug.move_to_position_reward, positionRewardOf, div_le_one hden]
      linarith
  · intro p h
    rw [Jitterbug.move_to_position_reward, h, positionRewardOf]
    norm_num
  · intro d1 d2 h1 h12
    have hden1 : (0:ℝ) < 10 * d1 + 1 := by linarith
    have hden2 : 10 * d1 + 1 < 10 * d2 + 1 := by linarith
    rw [positionRewardOf, positionRewardOf]
    exact one_div_lt_one_div_of_lt hden1 hden2
  · have hlin : Filter.Tendsto (fun d : ℝ => 10 * d + 1) Filter.atTop Filter.atTop :=
      Filter.tendsto_atTop_add_const_right _ 1
        (Filter.Tendsto.const_mul_atTop (by norm_num) Filter.tendsto_id)
    have hcomp : Filter.Tendsto (fun d : ℝ => (10 * d + 1)⁻¹)
        Filter.atTop (nhds 0) := tendsto_inv_atTop_zero.comp hlin
    have heq : positionRewardOf = fun d : ℝ => (10 * d + 1)⁻¹ := by
      funext d
      rw [positionRewardOf, one_div]
    rw [heq]
    exact hcomp

/-- Witness for position_reward_spec: at a state with the robot exactly on
the target the reward is 1, and the formula is smaller at distance 1 than
at distance 0. -/
theorem position_reward_values :
    Jitterbug.move_to_position_reward basePhysics = 1
    ∧ positionRewardOf 1 < positionRewardOf 0 :=
  ⟨position_reward_spec.2.1 basePhysics
     (by
        rw [Vec3.norm]
        norm_num [basePhysics, Physics.vec3_jitterbug_to_target,
          Physics.target_position_xyz, Physics.jitterbug_position_xyz, Vec3.sub,
          Real.sqrt_zero]),
   position_reward_spec.2.2.1 0 1 le_rfl one_pos⟩

/-- C7: the move_in_direction base reward is the clamp to [0, 1] of the
velocity projection onto the target heading divided by 0.3: zero for
non-positive projection, one for projection at least 0.3, the projection
divided by 0.3 in between; and it is the base reward that get_reward
multiplies by upright_reward for this variant. -/
theorem move_in_direction_reward_spec (p : Physics) :
    (Jitterbug.mk "move_in_direction").get_reward p
      = some (moveInDirectionBase p * Jitterbug.upright_reward p)
    ∧ moveInDirectionBase p
      = min (max (max 0 (dot2 p.jitterbug_velocity_xy p.target_direction_vec2) / 0.3) 0) 1
    ∧ (dot2 p.jitterbug_velocity_xy p.target_direction_vec2 ≤ 0 →
        moveInDirectionBase p = 0)
    ∧ (0.3 ≤ dot2 p.jitterbug_velocity_xy p.target_direction_vec2 →
        moveInDirectionBase p = 1)
    ∧ (0 ≤ dot2 p.jitterbug_velocity_xy p.target_direction_vec2 →
        dot2 p.jitterbug_velocity_xy p.target_direction_vec2 ≤ 0.3 →
        moveInDirectionBase p
          = dot2 p.jitterbug_velocity_xy p.target_direction_vec2 / 0.3) := by
  have key : ∀ x : ℝ,
      (min (max (max 0 x / 0.3) 0) 1 = min (max 0 x / 0.3) 1)
      ∧ (x ≤ 0 → min (max 0 x / 0.3) 1 = 0)
      ∧ (0.3 ≤ x → min (max 0 x / 0.3) 1 = 1)
      ∧ (0 ≤ x → x ≤ 0.3 → min (max 0 x / 0.3) 1 = x / 0.3) := by
    intro x
    refine ⟨?_, ?_, ?_, ?_⟩
    · rw [max_eq_left (div_nonneg (le_max_left 0 x) (by norm_num))]
    · intro h
      rw [max_eq_left h, zero_div, min_eq_left zero_le_one]
    · intro h
      rw [max_eq_right (le_trans (by norm_num) h),
        min_eq_right ((one_le_div (by norm_num)).mpr h)]
    · intro h0 h3
      rw [max_eq_right h0, min_eq_left ((div_le_one (by norm_num)).mpr h3)]
  refine ⟨?_, ?_, ?_, ?_, ?_⟩
  · simp [Jitterbug.get_reward, moveInDirectionBase, dot2]
    exact Or.inl (by norm_num)
  · rw [moveInDirectionBase,
      (key (dot2 p.jitterbug_velocity_xy p.target_direction_vec2)).1]
  · intro h
    rw [moveInDirectionBase]
    exact (key _).2.1 h
  · intro h
    rw [moveInDirectionBase]
    exact (key _).2.2.1 h
  · intro h0 h3
    rw [moveInDirectionBase]
    exact (key _).2.2.2 h0 h3

/-- Witness for move_in_direction_reward_spec: with the target heading
along +X, an XY velocity of (-1, 0) gives base reward 0 and an XY velocity
of (1, 0) (projection 1 at least 0.3) gives base reward 1. -/
theorem move_in_direction_reward_values :
    moveInDirectionBase { basePhysics with qvel_root_lin := ⟨-1, 0, 0⟩ } = 0
    ∧ moveInDirectionBase { basePhysics with qvel_root_lin := ⟨1, 0, 0⟩ } = 1 := by
  have hdot : ∀ vx : ℝ,
      dot2 { basePhysics with qvel_root_lin := (⟨vx, 0, 0⟩ : Vec3) }.jitterbug_velocity_xy
        { basePhysics with qvel_root_lin := (⟨vx, 0, 0⟩ : Vec3) }.target_direction_vec2
        = vx := by
    intro vx
    norm_num [dot2, Physics.jitterbug_velocity_xy, Physics.target_direction_vec2,
      Physics.target_direction_yaw, Physics.target_position_quat, basePhysics,
      quatMat00, quatMat10, atan2, Real.arctan_zero, Real.cos_zero, Real.sin_zero]
  exact ⟨(move_in_direction_reward_spec _).2.2.1 (by rw [hdot]; norm_num),
    (move_in_direction_reward_spec _).2.2.2.1 (by rw [hdot]; norm_num)⟩

end JitterbugDMC
